import Mathlib

/-!
Verification of the `red` package (a RESP command-dispatch server) against
its natural-language specification.  The Go source is shallowly embedded:
Go strings become Lean `String`s, the handler map becomes a function
`String → Option HandlerFunc`, and the per-connection dispatch loop of
`HandleConn` becomes a pure step function on an explicit connection state,
together with a trace-collecting `run` over a list of decode events.
Wire encoding/decoding is the external codec and is kept abstract: a reply
handed to `resp.Encode` is represented by the `Resp` value itself.
-/

namespace Red

/-- Model of the RESP reply values flowing into `resp.Encode`: simple
strings, bulk strings, integers, nil, errors, and arrays (`resp.Array`). -/
inductive Resp where
  | simple (s : String)
  | bulk (s : String)
  | int (n : Int)
  | nil
  | error (s : String)
  | array (xs : List Resp)
deriving Repr, Inhabited

/-- `Request` from red.go: lowercase command name plus arguments. -/
structure Request where
  name : String
  args : List String
deriving Repr, DecidableEq, Inhabited

/-- The error a Go handler may return: either the distinguished
`red.ErrWrongArgs` sentinel or any other error, represented by the text
its `Error()` method yields. -/
inductive HandlerError where
  | wrongArgs
  | other (text : String)
deriving Repr, DecidableEq

/-- `HandlerFunc` from red.go: `func(req Request) (interface{}, error)`.
The `interface{}` result is a `Resp` value (the package requires handlers
to return `resp` package types); the Go error is an `Option HandlerError`. -/
def HandlerFunc := Request → Resp × Option HandlerError

/-- The `handlers` map of `Server`: Go `map[string]HandlerFunc`, embedded
as a lookup function (absent key ↦ `none`). -/
def Registry := String → Option HandlerFunc

/-- The empty handlers map. -/
def emptyReg : Registry := fun _ => none

/-- Go map assignment `m[k] = v`, as performed by `Server.Handle`. -/
def mapInsert (reg : Registry) (k : String) (v : HandlerFunc) : Registry :=
  fun x => if x = k then some v else reg x

/-- `strings.ToLower`: character-wise lowercasing (faithful on the ASCII
command names the protocol uses). -/
def goToLower (s : String) : String := String.mk (s.data.map Char.toLower)

/-- `Server.Handle` from red.go.  A Go function value may be nil, so the
handler argument is an `Option`; the two `panic` calls are modelled as
returning `none` (registration fails fatally), otherwise the updated
handlers map is returned. -/
def Handle (reg : Registry) (name : String) (h : Option HandlerFunc) :
    Option Registry :=
  if name = "" then none
  else
    match h with
    | none => none
    | some f => some (mapInsert reg (goToLower name) f)

/-- `errNoCmd` from red.go. -/
def errNoCmd (name : String) : Resp :=
  .error ("ERR unknown command '" ++ name ++ "'")

/-- `errWrongArgs` from red.go. -/
def errWrongArgs (name : String) : Resp :=
  .error ("ERR wrong number of arguments for '" ++ name ++ "' command")

/-- `strings.ContainsAny(text, "\r\n")`: does the string contain a
carriage return or a line feed? -/
def containsCRLF (s : String) : Bool :=
  s.data.any fun c => c = '\r' || c = '\n'

/-- `strings.Replace(s, string(c), string(r), -1)` for one-character
patterns: replace every occurrence of character `c` by `r`. -/
def replaceChar (c r : Char) (s : String) : String :=
  String.mk (s.data.map fun x => if x = c then r else x)

/-- `singleVal` from red.go: call the handler; translate `ErrWrongArgs`
to the command-specific message, sanitize any other error text (CR and LF
replaced by spaces when present) under the `"ERR "` prefix, and pass a
successful value through unchanged. -/
def singleVal (h : HandlerFunc) (r : Request) : Resp :=
  match h r with
  | (v, none) => v
  | (_, some .wrongArgs) => errWrongArgs r.name
  | (_, some (.other text)) =>
      let text' :=
        if containsCRLF text then
          replaceChar '\n' ' ' (replaceChar '\r' ' ' text)
        else text
      .error ("ERR " ++ text')

/-- The loop-local transaction state of `HandleConn`: the queued requests
`tx`, the `inTx` flag and the `errTx` (poisoned) flag. -/
structure ConnState where
  tx : List Request
  inTx : Bool
  errTx : Bool
deriving Repr, DecidableEq, Inhabited

/-- The state a connection starts in (`Idle`, empty queue). -/
def initState : ConnState := ⟨[], false, false⟩

/-- One element of the `txReplies` batch built by EXEC: look the queued
request's name up in the handlers map at EXEC time; an unregistered name
yields `errNoCmd`, otherwise `singleVal` of the handler. -/
def execOne (reg : Registry) (r : Request) : Resp :=
  match reg r.name with
  | none => errNoCmd r.name
  | some h => singleVal h r

/-- Result of handling one successfully decoded request: `quit` models
`return nil` (loop ends, nothing written), `reply` carries the next
connection state and the single value passed to `resp.Encode`. -/
inductive StepResult where
  | quit
  | reply (st : ConnState) (rep : Resp)
deriving Repr, Inhabited

/-- One iteration of the `HandleConn` dispatch switch on a successfully
decoded request `req`, split as `head = req[0]` and `rest = req[1:]`.
Mirrors red.go lines 86–158 branch by branch. -/
def step (reg : Registry) (st : ConnState) (head : String)
    (rest : List String) : StepResult :=
  let cmd := goToLower head
  if cmd = "quit" then
    .quit
  else if cmd = "multi" then
    if rest ≠ [] then
      .reply (if st.inTx then { st with errTx := true } else st)
        (errWrongArgs cmd)
    else if st.inTx then
      .reply { st with errTx := true }
        (.error "ERR MULTI calls can not be nested")
    else
      .reply { st with inTx := true, errTx := false } (.simple "OK")
  else if cmd = "exec" then
    if rest ≠ [] then
      .reply (if st.inTx then { st with errTx := true } else st)
        (errWrongArgs cmd)
    else if st.inTx = false then
      .reply st (.error "ERR EXEC without MULTI")
    else if st.errTx then
      .reply ⟨[], false, false⟩
        (.error "EXECABORT Transaction discarded because of previous errors.")
    else
      .reply ⟨[], false, false⟩ (.array (st.tx.map (execOne reg)))
  else
    match reg cmd with
    | none =>
        .reply (if st.inTx then { st with errTx := true } else st)
          (errNoCmd cmd)
    | some h =>
        if st.inTx then
          .reply
            { st with tx := if st.errTx then st.tx else st.tx ++ [⟨cmd, rest⟩] }
            (.simple "QUEUED")
        else
          .reply st (singleVal h ⟨cmd, rest⟩)

/-- Ghost instrumentation: the list of handler invocations (the requests
passed to a registered `HandlerFunc`) that the corresponding branch of
`step` performs, in order.  A branch that replies without calling any
handler contributes `[]`; a standalone registered command contributes its
one invocation; a valid EXEC in an open transaction contributes every
queued request whose name is still registered, in queue order. -/
def calls (reg : Registry) (st : ConnState) (head : String)
    (rest : List String) : List Request :=
  let cmd := goToLower head
  if cmd = "quit" then []
  else if cmd = "multi" then []
  else if cmd = "exec" then
    if rest ≠ [] then []
    else if st.inTx = false then []
    else if st.errTx then []
    else st.tx.filter fun r => (reg r.name).isSome
  else
    match reg cmd with
    | none => []
    | some _ => if st.inTx then [] else [⟨cmd, rest⟩]

/-- One decode outcome of `resp.DecodeRequest` in the loop: a successful
request (non-empty token list, split head/rest), a malformed frame
(`resp.ErrInvalidRequest`), or any other decode error (EOF, transport). -/
inductive Event where
  | req (head : String) (rest : List String)
  | badFrame
  | fatal
deriving Repr, DecidableEq

/-- How a finite run of the loop ended: QUIT (`return nil`), a fatal
decode error (loop returns it), or input exhausted with the connection
still being served. -/
inductive Outcome where
  | quitEnd
  | fatalEnd
  | pending
deriving Repr, DecidableEq

/-- The dispatch loop of `HandleConn` over a finite list of decode
events: returns the replies written to the wire in order, the final
transaction state, and how the loop ended.  A malformed frame is answered
with `ERR unknown command` and the loop continues with the state
untouched; any other decode error ends the loop. -/
def run (reg : Registry) : ConnState → List Event →
    List Resp × ConnState × Outcome
  | st, [] => ([], st, .pending)
  | st, .badFrame :: es =>
      let out := run reg st es
      (.error "ERR unknown command" :: out.1, out.2)
  | st, .fatal :: _ => ([], st, .fatalEnd)
  | st, .req h r :: es =>
      match step reg st h r with
      | .quit => ([], st, .quitEnd)
      | .reply st' rep =>
          let out := run reg st' es
          (rep :: out.1, out.2)

/-- The handler invocations performed across a finite run, in order. -/
def runCalls (reg : Registry) : ConnState → List Event → List Request
  | _, [] => []
  | st, .badFrame :: es => runCalls reg st es
  | _, .fatal :: _ => []
  | st, .req h r :: es =>
      match step reg st h r with
      | .quit => []
      | .reply st' _ => calls reg st h r ++ runCalls reg st' es

/-! ### Test fixtures used by witnesses -/

/-- A handler replying `PONG`, never failing. -/
def pingHandler : HandlerFunc := fun _ => (.simple "PONG", none)

/-- A handler failing with a plain error whose text embeds CR and LF. -/
def boomHandler : HandlerFunc := fun _ => (.nil, some (.other "a\r\nb"))

/-- A handler failing with the `ErrWrongArgs` sentinel. -/
def fussyHandler : HandlerFunc := fun _ => (.nil, some .wrongArgs)

/-- A small concrete registry. -/
def testReg : Registry := fun n =>
  if n = "ping" then some pingHandler
  else if n = "boom" then some boomHandler
  else if n = "fussy" then some fussyHandler
  else none

/-! ### Claim C3 -/

/-- Claim C3: in state Poisoned (`inTx`, `errTx`), a valid EXEC (no
arguments) replies the EXECABORT error, invokes no handler, discards the
queue and returns the state to Idle. -/
theorem exec_poisoned_aborts (reg : Registry) (st : ConnState) (head : String)
    (hh : goToLower head = "exec") (h1 : st.inTx = true) (h2 : st.errTx = true) :
    step reg st head [] = .reply ⟨[], false, false⟩
        (.error "EXECABORT Transaction discarded because of previous errors.")
    ∧ calls reg st head [] = [] := by
  constructor
  · simp [step, hh, h1, h2]
  · simp [calls, hh, h1, h2]

/-- Witness for C3 at a concrete poisoned state with two queued requests. -/
theorem exec_poisoned_aborts_witness :
    step testReg ⟨[⟨"ping", []⟩, ⟨"nope", []⟩], true, true⟩ "EXEC" [] =
      .reply ⟨[], false, false⟩
        (.error "EXECABORT Transaction discarded because of previous errors.")
    ∧ calls testReg ⟨[⟨"ping", []⟩, ⟨"nope", []⟩], true, true⟩ "EXEC" [] = [] :=
  exec_poisoned_aborts testReg ⟨[⟨"ping", []⟩, ⟨"nope", []⟩], true, true⟩
    "EXEC" (by decide) rfl rfl

/-! ### Claim C9 -/

/-- Claim C9: QUIT, with any argument count and in any transaction state,
ends the loop with a nil error: no reply is written, no handler is
invoked, and the queued requests are discarded with the connection. -/
theorem quit_ends_loop (reg : Registry) (st : ConnState) (head : String)
    (rest : List String) (es : List Event) (h : goToLower head = "quit") :
    step reg st head rest = .quit
    ∧ calls reg st head rest = []
    ∧ run reg st (.req head rest :: es) = ([], st, .quitEnd)
    ∧ runCalls reg st (.req head rest :: es) = [] := by
  have hs : step reg st head rest = .quit := by simp [step, h]
  exact ⟨hs, by simp [calls, h], by simp [run, hs], by simp [runCalls, hs]⟩

/-- Witness for C9: QUIT with an argument, inside an open transaction
with a queued request, after further events that are never reached. -/
theorem quit_ends_loop_witness :
    step testReg ⟨[⟨"ping", []⟩], true, false⟩ "QUIT" ["now"] = .quit
    ∧ calls testReg ⟨[⟨"ping", []⟩], true, false⟩ "QUIT" ["now"] = []
    ∧ run testReg ⟨[⟨"ping", []⟩], true, false⟩
        [.req "QUIT" ["now"], .req "ping" []] =
        ([], ⟨[⟨"ping", []⟩], true, false⟩, .quitEnd)
    ∧ runCalls testReg ⟨[⟨"ping", []⟩], true, false⟩
        [.req "QUIT" ["now"], .req "ping" []] = [] :=
  quit_ends_loop testReg ⟨[⟨"ping", []⟩], true, false⟩ "QUIT" ["now"]
    [.req "ping" []] (by decide)

/-! ### Claim C10 -/

/-- Claim C10: MULTI immediately followed by EXEC from an idle connection
yields OK then exactly one array reply with zero elements, invokes no
handler, and returns the state to Idle. -/
theorem multi_exec_empty_array (reg : Registry) (st : ConnState)
    (head1 head2 : String)
    (hm : goToLower head1 = "multi") (he : goToLower head2 = "exec")
    (hi : st.inTx = false) (hq : st.tx = []) (hp : st.errTx = false) :
    run reg st [.req head1 [], .req head2 []] =
      ([.simple "OK", .array []], ⟨[], false, false⟩, .pending)
    ∧ runCalls reg st [.req head1 [], .req head2 []] = [] := by
  obtain ⟨tx, inTx, errTx⟩ := st
  simp only at hi hq hp
  subst hi hq hp
  have s1 : step reg ⟨[], false, false⟩ head1 [] =
      .reply ⟨[], true, false⟩ (.simple "OK") := by
    simp [step, hm]
  have s2 : step reg ⟨[], true, false⟩ head2 [] =
      .reply ⟨[], false, false⟩ (.array []) := by
    simp [step, he]
  constructor
  · simp [run, s1, s2]
  · simp [runCalls, calls, s1, s2, hm, he]

/-- Witness for C10 at the concrete initial state. -/
theorem multi_exec_empty_array_witness :
    run testReg initState [.req "MULTI" [], .req "EXEC" []] =
      ([.simple "OK", .array []], ⟨[], false, false⟩, .pending)
    ∧ runCalls testReg initState [.req "MULTI" [], .req "EXEC" []] = [] :=
  multi_exec_empty_array testReg initState "MULTI" "EXEC"
    (by decide) (by decide) rfl rfl rfl

/-! ### Claim C8 -/

/-- Helper: string append is associative (via the underlying data). -/
theorem strAppend_assoc (a b c : String) : a ++ b ++ c = a ++ (b ++ c) := by
  apply String.ext
  simp [String.data_append, List.append_assoc]

/-- Claim C8: a frame failing decode with the invalid-request error gets
exactly the reply `ERR unknown command` — textually a prefix of the
unknown-command reply, with no distinct protocol-error wording — and the
loop carries on with the transaction state untouched. -/
theorem bad_frame_recovers (reg : Registry) (st : ConnState)
    (es : List Event) :
    run reg st (.badFrame :: es) =
      (.error "ERR unknown command" :: (run reg st es).1, (run reg st es).2)
    ∧ runCalls reg st (.badFrame :: es) = runCalls reg st es
    ∧ ∀ name, errNoCmd name = .error ("ERR unknown command" ++ (" '" ++ name ++ "'")) := by
  refine ⟨by simp [run], by simp [runCalls], fun name => ?_⟩
  have h0 : "ERR unknown command '" = "ERR unknown command" ++ " '" := rfl
  simp only [errNoCmd, h0, strAppend_assoc]

/-- Witness for C8: one bad frame between two good requests; the state
(an open transaction) survives it unchanged. -/
theorem bad_frame_recovers_witness :
    run testReg ⟨[], true, false⟩ [.badFrame, .req "ping" []] =
      (.error "ERR unknown command" ::
        (run testReg ⟨[], true, false⟩ [.req "ping" []]).1,
       (run testReg ⟨[], true, false⟩ [.req "ping" []]).2)
    ∧ runCalls testReg ⟨[], true, false⟩ [.badFrame, .req "ping" []] =
        runCalls testReg ⟨[], true, false⟩ [.req "ping" []]
    ∧ errNoCmd "nope" = .error ("ERR unknown command" ++ (" '" ++ "nope" ++ "'")) := by
  refine ⟨(bad_frame_recovers testReg ⟨[], true, false⟩ [.req "ping" []]).1,
    (bad_frame_recovers testReg ⟨[], true, false⟩ [.req "ping" []]).2.1,
    (bad_frame_recovers testReg ⟨[], true, false⟩ [.req "ping" []]).2.2 "nope"⟩

/-! ### Claim C5 -/

/-- Claim C5: a non-control command in state Poisoned leaves the state
(and in particular the queue) exactly as it was, invokes no handler, and
replies QUEUED when the name is registered or the unknown-command error
when it is not. -/
theorem poisoned_freezes_queue (reg : Registry) (st : ConnState)
    (head : String) (rest : List String)
    (h1 : st.inTx = true) (h2 : st.errTx = true)
    (nq : goToLower head ≠ "quit") (nm : goToLower head ≠ "multi")
    (ne' : goToLower head ≠ "exec") :
    step reg st head rest =
      .reply st (if (reg (goToLower head)).isSome then .simple "QUEUED"
                 else errNoCmd (goToLower head))
    ∧ calls reg st head rest = [] := by
  obtain ⟨tx, inTx, errTx⟩ := st
  simp only at h1 h2
  subst h1 h2
  rcases hr : reg (goToLower head) with _ | f
  · constructor
    · simp [step, nq, nm, ne', hr]
    · simp [calls, nq, nm, ne', hr]
  · constructor
    · simp [step, nq, nm, ne', hr]
    · simp [calls, nq, nm, ne', hr]

/-- Witness for C5: a registered and an unregistered command against a
poisoned transaction with one queued request. -/
theorem poisoned_freezes_queue_witness :
    (step testReg ⟨[⟨"ping", []⟩], true, true⟩ "PING" ["x"] =
      .reply ⟨[⟨"ping", []⟩], true, true⟩
        (if (testReg (goToLower "PING")).isSome then .simple "QUEUED"
         else errNoCmd (goToLower "PING"))
     ∧ calls testReg ⟨[⟨"ping", []⟩], true, true⟩ "PING" ["x"] = [])
    ∧ (step testReg ⟨[⟨"ping", []⟩], true, true⟩ "nope" [] =
      .reply ⟨[⟨"ping", []⟩], true, true⟩
        (if (testReg (goToLower "nope")).isSome then .simple "QUEUED"
         else errNoCmd (goToLower "nope"))
     ∧ calls testReg ⟨[⟨"ping", []⟩], true, true⟩ "nope" [] = []) :=
  ⟨poisoned_freezes_queue testReg ⟨[⟨"ping", []⟩], true, true⟩ "PING" ["x"]
      rfl rfl (by decide) (by decide) (by decide),
   poisoned_freezes_queue testReg ⟨[⟨"ping", []⟩], true, true⟩ "nope" []
      rfl rfl (by decide) (by decide) (by decide)⟩

/-! ### Claim C7 -/

/-- Claim C7: `Handle` fails fatally exactly when the name is empty or
the handler is absent; otherwise it stores the handler under the
lowercased name, and of two registrations whose names case-fold to the
same key the later one wins. -/
theorem handle_contract (reg : Registry) (name : String)
    (h : Option HandlerFunc) :
    (Handle reg name h = none ↔ name = "" ∨ h = none)
    ∧ (∀ f, name ≠ "" →
        Handle reg name (some f) = some (mapInsert reg (goToLower name) f)
        ∧ mapInsert reg (goToLower name) f (goToLower name) = some f
        ∧ ∀ k, k ≠ goToLower name → mapInsert reg (goToLower name) f k = reg k)
    ∧ (∀ n2 f1 f2 reg1 reg2, goToLower name = goToLower n2 →
        Handle reg name (some f1) = some reg1 →
        Handle reg1 n2 (some f2) = some reg2 →
        reg2 (goToLower name) = some f2) := by
  refine ⟨?_, ?_, ?_⟩
  · unfold Handle
    rcases h with _ | f <;> by_cases hn : name = "" <;> simp [hn]
  · intro f hn
    exact ⟨by simp [Handle, hn], by simp [mapInsert],
      fun k hk => by simp [mapInsert, hk]⟩
  · intro n2 f1 f2 reg1 reg2 heq h1 h2
    by_cases hn : name = ""
    · simp [Handle, hn] at h1
    by_cases hn2 : n2 = ""
    · simp [Handle, hn2] at h2
    simp only [Handle, hn, if_false, Option.some.injEq] at h1
    simp only [Handle, hn2, if_false, Option.some.injEq] at h2
    subst h1
    subst h2
    simp [mapInsert, heq]

/-- Witness for C7: empty-name and absent-handler registrations fail;
registering `PING` then `Ping` leaves the later handler under `ping`. -/
theorem handle_contract_witness :
    Handle emptyReg "" (some pingHandler) = none
    ∧ Handle emptyReg "ping" none = none
    ∧ mapInsert (mapInsert emptyReg "ping" pingHandler) "ping" fussyHandler
        "ping" = some fussyHandler := by
  refine ⟨(handle_contract emptyReg "" (some pingHandler)).1.mpr (Or.inl rfl),
    (handle_contract emptyReg "ping" none).1.mpr (Or.inr rfl), ?_⟩
  exact (handle_contract emptyReg "PING" (some pingHandler)).2.2 "Ping"
    pingHandler fussyHandler
    (mapInsert emptyReg "ping" pingHandler)
    (mapInsert (mapInsert emptyReg "ping" pingHandler) "ping" fussyHandler)
    rfl rfl rfl

/-! ### Claim C4 -/

/-- Counterexample to claim C4 as stated: a malformed MULTI (an extra
argument) while the transaction is Open does poison the transaction, but
the reply is the wrong-arguments error, not the nesting error. -/
theorem multi_malformed_cex :
    step emptyReg ⟨[], true, false⟩ "multi" ["x"] =
      .reply ⟨[], true, true⟩ (errWrongArgs "multi")
    ∧ errWrongArgs "multi" ≠ .error "ERR MULTI calls can not be nested" := by
  refine ⟨rfl, fun hcon => ?_⟩
  exact absurd (Resp.error.inj hcon) (by decide)

/-- Claim C4 (amended): a well-formed MULTI in Open or Poisoned poisons
and replies the nesting error; a malformed MULTI in Open or Poisoned
poisons and replies the wrong-arguments error; a malformed MULTI in Idle
replies the wrong-arguments error and leaves the state untouched. -/
theorem multi_transitions (reg : Registry) (st : ConnState) (head : String)
    (rest : List String) (hh : goToLower head = "multi") :
    (rest = [] → st.inTx = true →
      step reg st head rest = .reply { st with errTx := true }
        (.error "ERR MULTI calls can not be nested"))
    ∧ (rest ≠ [] → st.inTx = true →
      step reg st head rest =
        .reply { st with errTx := true } (errWrongArgs "multi"))
    ∧ (rest ≠ [] → st.inTx = false →
      step reg st head rest = .reply st (errWrongArgs "multi")) := by
  refine ⟨fun hr hi => ?_, fun hr hi => ?_, fun hr hi => ?_⟩ <;>
    simp [step, hh, hr, hi]

/-- Witness for C4 (amended) in the three concrete situations. -/
theorem multi_transitions_witness :
    step testReg ⟨[], true, true⟩ "MULTI" [] =
      .reply ⟨[], true, true⟩ (.error "ERR MULTI calls can not be nested")
    ∧ step testReg ⟨[], true, false⟩ "MULTI" ["x"] =
      .reply ⟨[], true, true⟩ (errWrongArgs "multi")
    ∧ step testReg ⟨[], false, false⟩ "MULTI" ["x"] =
      .reply ⟨[], false, false⟩ (errWrongArgs "multi") :=
  ⟨(multi_transitions testReg ⟨[], true, true⟩ "MULTI" [] (by decide)).1 rfl rfl,
   (multi_transitions testReg ⟨[], true, false⟩ "MULTI" ["x"] (by decide)).2.1
     (by decide) rfl,
   (multi_transitions testReg ⟨[], false, false⟩ "MULTI" ["x"] (by decide)).2.2
     (by decide) rfl⟩

/-! ### Claim C6 -/

/-- Helper: the guarded two-pass CR/LF replacement of `singleVal` equals
one character-wise replacement of every CR and LF by a space. -/
theorem sanitize_eq_map (t : String) :
    (if containsCRLF t then replaceChar '\n' ' ' (replaceChar '\r' ' ' t)
     else t)
    = String.mk (t.data.map fun c =>
        if c = '\r' ∨ c = '\n' then ' ' else c) := by
  rcases t with ⟨l⟩
  by_cases h : containsCRLF ⟨l⟩ = true
  · simp only [h, if_true, replaceChar, List.map_map]
    congr 1
    apply List.map_congr_left
    intro c _
    by_cases hr : c = '\r'
    · subst hr; simp
    · by_cases hn : c = '\n'
      · subst hn; simp
      · simp [hr, hn]
  · rw [if_neg h]
    have hall : ∀ c ∈ l, ¬(c = '\r' ∨ c = '\n') := by
      intro c hc hcon
      refine h ?_
      simp only [containsCRLF, List.any_eq_true]
      exact ⟨c, hc, by rcases hcon with h' | h' <;> simp [h']⟩
    congr 1
    have : ∀ c ∈ l,
        (fun c => if c = '\r' ∨ c = '\n' then ' ' else c) c = id c := by
      intro c hc
      simp [hall c hc]
    rw [List.map_congr_left this, List.map_id]

/-- Claim C6: a handler's nil error passes its value through unchanged;
the `ErrWrongArgs` sentinel becomes the command-specific wrong-arguments
message; any other error becomes an error reply of the handler's text
with every CR and LF replaced by a space, behind the `ERR ` tag. -/
theorem handler_error_to_wire (h : HandlerFunc) (r : Request) :
    (∀ v, h r = (v, none) → singleVal h r = v)
    ∧ (∀ v, h r = (v, some .wrongArgs) → singleVal h r = errWrongArgs r.name)
    ∧ (∀ v t, h r = (v, some (.other t)) →
        singleVal h r = .error ("ERR " ++ String.mk (t.data.map fun c =>
          if c = '\r' ∨ c = '\n' then ' ' else c))) := by
  refine ⟨fun v hv => ?_, fun v hv => ?_, fun v t hv => ?_⟩
  · simp [singleVal, hv]
  · simp [singleVal, hv]
  · simp only [singleVal, hv]
    rw [← sanitize_eq_map]

/-- Witness for C6: the three handler outcomes at concrete requests; the
CR/LF-laden text `a\r\nb` is flattened to `a  b`. -/
theorem handler_error_to_wire_witness :
    singleVal pingHandler ⟨"ping", []⟩ = .simple "PONG"
    ∧ singleVal fussyHandler ⟨"fussy", []⟩ = errWrongArgs "fussy"
    ∧ singleVal boomHandler ⟨"boom", []⟩ = .error "ERR a  b" :=
  ⟨(handler_error_to_wire pingHandler ⟨"ping", []⟩).1 (.simple "PONG") rfl,
   (handler_error_to_wire fussyHandler ⟨"fussy", []⟩).2.1 .nil rfl,
   ((handler_error_to_wire boomHandler ⟨"boom", []⟩).2.2 .nil "a\r\nb"
      rfl).trans (by rfl)⟩

/-! ### Claim C1 -/

/-- Claim C1: a valid EXEC in state Open executes the queued requests in
order against the registry, replies one array whose length is the queue
length and whose elements are the standalone replies of the queued
requests (an unknown-command error standing in for any name unregistered
at EXEC time), and resets the state to Idle. -/
theorem exec_open_runs_queue (reg : Registry) (st : ConnState)
    (head : String) (hh : goToLower head = "exec")
    (h1 : st.inTx = true) (h2 : st.errTx = false) :
    step reg st head [] =
      .reply ⟨[], false, false⟩ (.array (st.tx.map (execOne reg)))
    ∧ (st.tx.map (execOne reg)).length = st.tx.length
    ∧ calls reg st head [] = st.tx.filter (fun r => (reg r.name).isSome)
    ∧ (∀ r ∈ st.tx, reg r.name = none → execOne reg r = errNoCmd r.name)
    ∧ (∀ r ∈ st.tx, ∀ f, reg r.name = some f → goToLower r.name = r.name →
        goToLower r.name ≠ "quit" → goToLower r.name ≠ "multi" →
        goToLower r.name ≠ "exec" →
        step reg ⟨[], false, false⟩ r.name r.args =
          .reply ⟨[], false, false⟩ (execOne reg r)) := by
  refine ⟨by simp [step, hh, h1, h2], by simp, by simp [calls, hh, h1, h2],
    fun r _ hr => by simp [execOne, hr], fun r _ f hf hlow nq nm ne' => ?_⟩
  rw [hlow] at nq nm ne'
  simp [step, execOne, hlow, nq, nm, ne', hf]

/-- Witness for C1: an open transaction holding a registered and a (by
EXEC time) unregistered request; the batch pairs the standalone `ping`
reply with the unknown-command element, and standalone dispatch of the
queued `ping` agrees with its batch element. -/
theorem exec_open_runs_queue_witness :
    step testReg ⟨[⟨"ping", ["a"]⟩, ⟨"nope", []⟩], true, false⟩ "EXEC" [] =
      .reply ⟨[], false, false⟩ (.array [.simple "PONG", errNoCmd "nope"])
    ∧ calls testReg ⟨[⟨"ping", ["a"]⟩, ⟨"nope", []⟩], true, false⟩ "EXEC" [] =
        [⟨"ping", ["a"]⟩]
    ∧ step testReg ⟨[], false, false⟩ "ping" ["a"] =
        .reply ⟨[], false, false⟩ (execOne testReg ⟨"ping", ["a"]⟩) := by
  have h := exec_open_runs_queue testReg
    ⟨[⟨"ping", ["a"]⟩, ⟨"nope", []⟩], true, false⟩ "EXEC" (by decide) rfl rfl
  exact ⟨h.1.trans (by rfl), h.2.2.1.trans (by rfl),
    h.2.2.2.2 ⟨"ping", ["a"]⟩ (by simp) pingHandler rfl rfl (by decide)
      (by decide) (by decide)⟩

/-! ### Claim C2 -/

/-- Counterexample to claim C2 as stated: QUIT is a successfully decoded
request consumed by the loop that writes no reply at all — a second
exception besides EXEC, which the claim calls the sole one. -/
theorem one_reply_cex :
    run emptyReg initState [.req "quit" []] = ([], initState, .quitEnd)
    ∧ goToLower "quit" ≠ "exec" := ⟨rfl, by decide⟩

/-- Claim C2 (amended): each successfully decoded request yields exactly
one reply before the next decode, except QUIT, which ends the loop with
no reply; a valid EXEC in Open yields its one reply as an array whose
element count is the queue length at that moment. -/
theorem one_reply_per_request (reg : Registry) (st : ConnState)
    (head : String) (rest : List String) :
    (step reg st head rest = .quit ↔ goToLower head = "quit")
    ∧ (goToLower head ≠ "quit" →
        ∃ st' rep, step reg st head rest = .reply st' rep)
    ∧ (∀ es st' rep, step reg st head rest = .reply st' rep →
        run reg st (.req head rest :: es) =
          (rep :: (run reg st' es).1, (run reg st' es).2))
    ∧ (goToLower head = "exec" → rest = [] → st.inTx = true →
        st.errTx = false →
        step reg st head rest =
          .reply ⟨[], false, false⟩ (.array (st.tx.map (execOne reg)))
        ∧ (st.tx.map (execOne reg)).length = st.tx.length) := by
  have hiff : step reg st head rest = .quit ↔ goToLower head = "quit" := by
    constructor
    · intro hs
      by_contra hq
      rcases hr : reg (goToLower head) with _ | f <;>
        simp [step, hq, hr] at hs <;>
        split_ifs at hs <;> simp_all
    · intro hq
      simp [step, hq]
  refine ⟨hiff, fun hq => ?_, fun es st' rep hs => by simp [run, hs],
    fun hh hr hi hp => ⟨by simp [step, hh, hr, hi, hp], by simp⟩⟩
  rcases hs : step reg st head rest with _ | ⟨st', rep⟩
  · exact absurd (hiff.mp hs) hq
  · exact ⟨st', rep, rfl⟩

/-- Witness for C2 (amended): QUIT quits, a registered command yields its
one reply before the rest of the stream is read, and a valid EXEC in Open
yields the one-element array for a one-element queue. -/
theorem one_reply_per_request_witness :
    (step testReg initState "QUIT" [] = .quit ↔ goToLower "QUIT" = "quit")
    ∧ run testReg initState [.req "ping" [], .req "quit" []] =
        (.simple "PONG" :: (run testReg initState [.req "quit" []]).1,
         (run testReg initState [.req "quit" []]).2)
    ∧ step testReg ⟨[⟨"ping", []⟩], true, false⟩ "exec" [] =
        .reply ⟨[], false, false⟩ (.array [.simple "PONG"]) := by
  refine ⟨(one_reply_per_request testReg initState "QUIT" []).1,
    (one_reply_per_request testReg initState "ping" []).2.2.1
      [.req "quit" []] initState (.simple "PONG") rfl, ?_⟩
  exact (((one_reply_per_request testReg ⟨[⟨"ping", []⟩], true, false⟩
    "exec" []).2.2.2 rfl rfl rfl rfl).1).trans (by rfl)

end Red
